import Mathlib

/-!
Verification of the EDtunnel stream-bridge and outbound-connection core.

The definitions below are a shallow embedding of the repository's
JavaScript sources:

* `src/handlers/stream.js` (`makeReadableWebSocketStream`, `remoteSocketToWS`),
* `src/handlers/tcp.js` (`handleTCPOutBound` with its inner
  `connectAndWrite` and `retry` closures),
* `src/utils/parser.js` (`socks5AddressParser`),
* `src/config/constants.js` (WebSocket ready-state constants).

Bytes are modelled as `Nat` lists, JavaScript strings as Lean `String`s,
and WebSocket ready states as the numeric constants the source uses.
Functions that `throw` are modelled with `Except`; JavaScript truthiness
of the nullable string fields is made explicit.
-/

namespace EDtunnel

deriving instance DecidableEq for Except

/-- WebSocket ready-state `OPEN` (`WS_READY_STATE_OPEN` in
`src/config/constants.js`). -/
def wsReadyStateOpen : Nat := 1

/-- WebSocket ready-state `CLOSING` (`WS_READY_STATE_CLOSING` in
`src/config/constants.js`). -/
def wsReadyStateClosing : Nat := 2

/-- WebSocket ready-state `CLOSED` (standard WebSocket constant `3`). -/
def wsReadyStateClosed : Nat := 3

/-- Modelled from the spec: `safeCloseWebSocket` lives in
`src/utils/websocket.js`, which is not among the staged sources.  The spec
says cancellation "closes inbound immediately" with "no double-close
fault"; the function closes the WebSocket only when its ready state is
`OPEN` or `CLOSING`, so closing an already-closed socket is a no-op. -/
def safeCloseWebSocket (readyState : Nat) : Nat :=
  if readyState = wsReadyStateOpen ∨ readyState = wsReadyStateClosing then
    wsReadyStateClosed
  else readyState

/-! ### The outbound-to-inbound copy loop of `remoteSocketToWS` -/

/-- One chunk arriving from the outbound socket's readable side inside
`remoteSocketToWS`'s `pipeTo` writable sink, tagged with the inbound
WebSocket's `readyState` at the moment the `write` callback runs. -/
structure Chunk where
  wsReadyState : Nat
  data : List Nat
deriving Repr, DecidableEq

/-- Whether the inbound WebSocket is open when the chunk is written. -/
def Chunk.isOpen (c : Chunk) : Bool := c.wsReadyState = wsReadyStateOpen

/-- The mutable state of `remoteSocketToWS`'s copy: the
`hasIncomingData` flag and the (locally rebound) `protocolResponseHeader`
parameter, which is set to `null` after its first use. -/
structure CopyState where
  hasIncomingData : Bool
  protocolResponseHeader : Option (List Nat)
deriving Repr, DecidableEq

/-- The `write(chunk)` callback of `remoteSocketToWS`: throws (`none`)
when the WebSocket is not `OPEN`; otherwise sets `hasIncomingData`,
prepends the pending protocol response header to the frame and clears it
when one is pending, and sends the chunk alone otherwise. -/
def writeChunk (st : CopyState) (c : Chunk) : Option (List Nat × CopyState) :=
  if c.wsReadyState ≠ wsReadyStateOpen then none
  else
    let st1 : CopyState := { st with hasIncomingData := true }
    match st1.protocolResponseHeader with
    | some h => some (h ++ c.data, { st1 with protocolResponseHeader := none })
    | none => some (c.data, st1)

/-- Outcome of piping the outbound readable through the writable sink:
the frames sent to the WebSocket in order, the final copy state, and
whether the pipe was aborted by a `write` throw. -/
structure CopyResult where
  sent : List (List Nat)
  state : CopyState
  errored : Bool
deriving Repr, DecidableEq

/-- The `pipeTo` loop: chunks are written in arrival order; the first
throwing `write` aborts the pipe, and later chunks are never delivered. -/
def copyLoop (st : CopyState) : List Chunk → CopyResult
  | [] => ⟨[], st, false⟩
  | c :: cs =>
    match writeChunk st c with
    | none => ⟨[], st, true⟩
    | some (frame, st1) =>
      let r := copyLoop st1 cs
      ⟨frame :: r.sent, r.state, r.errored⟩

/-- What one call of `remoteSocketToWS` does, beyond the copy itself:
whether the `catch` branch closed the WebSocket, and whether the trailing
`if (!hasIncomingData && retry) await retry()` fires.  `remoteErrored`
models the outbound readable erroring (which also rejects `pipeTo`) after
the listed chunks. -/
structure RemoteToWSResult where
  copy : CopyResult
  wsClosedOnError : Bool
  wantsRetry : Bool
deriving Repr, DecidableEq

/-- `remoteSocketToWS(remoteSocket, webSocket, protocolResponseHeader,
retry, log)`: pipe the socket's chunks to the WebSocket, close the
WebSocket if the pipe rejected, then retry exactly when no incoming data
was seen and a retry callback was supplied. -/
def remoteSocketToWS (chunks : List Chunk) (remoteErrored : Bool)
    (protocolResponseHeader : Option (List Nat)) (retryAvailable : Bool) :
    RemoteToWSResult :=
  let r := copyLoop ⟨false, protocolResponseHeader⟩ chunks
  let errored := r.errored || remoteErrored
  { copy := r
    wsClosedOnError := errored
    wantsRetry := !r.state.hasIncomingData && retryAvailable }

/-! ### `handleTCPOutBound` of `src/handlers/tcp.js` -/

/-- JavaScript truthiness of a nullable string field: `null`/`undefined`
(`none`) and the empty string are falsy. -/
def truthyStr : Option String → Bool
  | none => false
  | some s => s ≠ ""

/-- A port value as it flows through the code: `portRemote` is a number,
while `config.proxyPort` (set from `handleProxyConfig`) is a string. -/
inductive PortVal where
  | num (n : Nat)
  | str (s : String)
deriving Repr, DecidableEq

/-- The fields of the request configuration that `handleTCPOutBound`
reads: the global-relay flag `socks5Relay`, the proxy-chain descriptor
(`proxyType` is `'socks5'`, `'http'` or `null`; `parsedProxyAddress` is
modelled by its truthiness), and the fallback target
`proxyIP`/`proxyPort`. -/
structure Config where
  socks5Relay : Bool
  proxyType : Option String
  parsedProxyAddress : Bool
  proxyIP : Option String
  proxyPort : Option String
deriving Repr, DecidableEq

/-- `config.proxyType && config.parsedProxyAddress`: a proxy chain is
configured. -/
def chainConfigured (config : Config) : Bool :=
  truthyStr config.proxyType && config.parsedProxyAddress

/-- How a connection attempt was routed. -/
inductive Route where
  | direct
  | socks5
  | http
deriving Repr, DecidableEq

/-- Who performed a tunnel-payload write to the outbound socket. -/
inductive WriterTag where
  | caller
  | httpInternal
deriving Repr, DecidableEq

/-- One successful `connectAndWrite` call: the target it was given, the
route taken, and the tunnel-payload writes made to the new socket in
order.  The SOCKS5/HTTP handshake bodies live in `src/handlers/socks5.js`
and `src/handlers/http.js`, which are not among the staged sources;
modelled from the spec: the SOCKS5 client "returns the already-open
socket; the caller is responsible for writing the client's first payload
afterward" (so it contributes no tunnel-payload write), and the HTTP
client "writes `initialPayload` immediately after a successful CONNECT"
(one internal tunnel-payload write). -/
structure ConnAttempt where
  address : String
  port : PortVal
  route : Route
  writes : List (WriterTag × List Nat)
deriving Repr, DecidableEq

/-- The inner `connectAndWrite(address, port, useProxy)` of
`handleTCPOutBound`: `shouldUseProxy = config.socks5Relay || useProxy`;
with a configured proxy chain that is to be used, the HTTP branch lets
`httpConnect` write `rawClientData` internally and returns early, the
SOCKS5 branch falls through; otherwise the connection is direct.  All
non-HTTP paths end with the caller writing `rawClientData` as the first
write. -/
def connectAndWrite (config : Config) (rawClientData : List Nat)
    (address : String) (port : PortVal) (useProxy : Bool) : ConnAttempt :=
  let shouldUseProxy := config.socks5Relay || useProxy
  if shouldUseProxy && truthyStr config.proxyType && config.parsedProxyAddress then
    if config.proxyType = some "http" then
      { address := address, port := port, route := .http
        writes := [(.httpInternal, rawClientData)] }
    else
      { address := address, port := port, route := .socks5
        writes := [(.caller, rawClientData)] }
  else
    { address := address, port := port, route := .direct
      writes := [(.caller, rawClientData)] }

/-- The inner `retry()` of `handleTCPOutBound`: with a configured proxy
chain retry the original target through the proxy, otherwise retry
against `config.proxyIP || addressRemote` and
`config.proxyPort || portRemote` directly. -/
def retryAttempt (config : Config) (rawClientData : List Nat)
    (addressRemote : String) (portRemote : Nat) : ConnAttempt :=
  if truthyStr config.proxyType && config.parsedProxyAddress then
    connectAndWrite config rawClientData addressRemote (.num portRemote) true
  else
    connectAndWrite config rawClientData
      (if truthyStr config.proxyIP then config.proxyIP.getD "" else addressRemote)
      (if truthyStr config.proxyPort then .str (config.proxyPort.getD "")
       else .num portRemote)
      false

/-- The per-session behaviour of the network, supplied as data: the
chunks the first outbound socket delivers (and whether its readable side
errors afterwards), the same for the socket the retry opens, and the
WebSocket's ready state at the moment the retry socket's `closed`
promise settles. -/
structure SessionEnv where
  firstChunks : List Chunk
  firstRemoteErrored : Bool
  retryChunks : List Chunk
  retryRemoteErrored : Bool
  wsStateWhenRetrySocketClosed : Nat
deriving Repr, DecidableEq

/-- Observable outcome of one `handleTCPOutBound` session. -/
structure SessionResult where
  attempts : List ConnAttempt
  retried : Bool
  retryWantsSecondRetry : Bool
  wsStateAfterRetryClose : Option Nat
  firstCopy : RemoteToWSResult
  retryCopy : Option RemoteToWSResult
deriving Repr, DecidableEq

/-- `handleTCPOutBound`: connect-and-write to the requested target, pipe
the socket to the WebSocket with the `retry` callback installed; when
that call wants a retry, run `retry()`, which opens its replacement
socket, unconditionally closes the WebSocket once that socket's `closed`
promise settles, and pipes it with no further retry callback.  The outer
`protocolResponseHeader` is passed to both `remoteSocketToWS` calls
(the first call clears only its own local parameter). -/
def handleTCPOutBound (config : Config) (addressRemote : String)
    (portRemote : Nat) (rawClientData : List Nat)
    (protocolResponseHeader : Option (List Nat)) (env : SessionEnv) :
    SessionResult :=
  let a1 := connectAndWrite config rawClientData addressRemote (.num portRemote) false
  let r1 := remoteSocketToWS env.firstChunks env.firstRemoteErrored
    protocolResponseHeader true
  if r1.wantsRetry then
    let a2 := retryAttempt config rawClientData addressRemote portRemote
    let r2 := remoteSocketToWS env.retryChunks env.retryRemoteErrored
      protocolResponseHeader false
    { attempts := [a1, a2]
      retried := true
      retryWantsSecondRetry := r2.wantsRetry
      wsStateAfterRetryClose := some (safeCloseWebSocket env.wsStateWhenRetrySocketClosed)
      firstCopy := r1
      retryCopy := some r2 }
  else
    { attempts := [a1]
      retried := false
      retryWantsSecondRetry := false
      wsStateAfterRetryClose := none
      firstCopy := r1
      retryCopy := none }

/-! ### `makeReadableWebSocketStream` of `src/handlers/stream.js` -/

/-- Value of one base64 alphabet character. -/
def base64CharVal (c : Char) : Option Nat :=
  if 'A' ≤ c ∧ c ≤ 'Z' then some (c.toNat - 65)
  else if 'a' ≤ c ∧ c ≤ 'z' then some (c.toNat - 97 + 26)
  else if '0' ≤ c ∧ c ≤ '9' then some (c.toNat - 48 + 52)
  else if c = '+' then some 62
  else if c = '/' then some 63
  else none

/-- Map every character of the early-data header to its base64 value;
any character outside the alphabet is a decode failure. -/
def base64Vals : List Char → Option (List Nat)
  | [] => some []
  | c :: cs =>
    match base64CharVal c, base64Vals cs with
    | some v, some vs => some (v :: vs)
    | _, _ => none

/-- Reassemble one final (possibly short) base64 quantum into bytes: four
values give three bytes, three give two, two give one, and a single
leftover value is a decode failure. -/
def base64Quantum : List Nat → Option (List Nat)
  | [a, b] => some [a * 4 + b / 16]
  | [a, b, c] => some [a * 4 + b / 16, b % 16 * 16 + c / 4]
  | [a, b, c, d] => some [a * 4 + b / 16, b % 16 * 16 + c / 4, c % 4 * 64 + d]
  | _ => none

/-- Decode a base64 value sequence, four values at a time. -/
def base64Bytes : List Nat → Option (List Nat)
  | [] => some []
  | a :: b :: c :: d :: e :: rest =>
    match base64Quantum [a, b, c, d], base64Bytes (e :: rest) with
    | some bytes, some more => some (bytes ++ more)
    | _, _ => none
  | leftover => base64Quantum leftover

/-- Modelled from the spec: `base64ToArrayBuffer` lives in
`src/utils/encoding.js`, which is not among the staged sources.  Per the
spec, the early-data header is a "base64url string (no padding)", a
falsy header yields no early data, and a "decode failure surfaced as an
immediate stream error": translate the base64url alphabet (`-` to `+`,
`_` to `/`) and decode. -/
def base64ToArrayBuffer (s : String) : Except Unit (Option (List Nat)) :=
  if s = "" then .ok none
  else
    let normalized := s.data.map fun c =>
      if c = '-' then '+' else if c = '_' then '/' else c
    match (base64Vals normalized).bind base64Bytes with
    | some bytes => .ok (some bytes)
    | none => .error ()

/-- The chunk sequence `makeReadableWebSocketStream`'s `start` callback
produces while the stream is not cancelled: the early-data header is
decoded once; a decode error errors the stream before any chunk, a
present decoded value is enqueued ahead of every live `message` event,
and an absent one leaves exactly the live message chunks. -/
def wsStreamChunks (earlyDataHeader : String)
    (liveMessages : List (List Nat)) : Except Unit (List (List Nat)) :=
  match base64ToArrayBuffer earlyDataHeader with
  | .error e => .error e
  | .ok none => .ok liveMessages
  | .ok (some earlyData) => .ok (earlyData :: liveMessages)

/-- The observable state of the readable stream's wiring: the
`readableStreamCancel` flag and the server WebSocket's ready state. -/
structure WSStreamState where
  readableStreamCancel : Bool
  wsReadyState : Nat
deriving Repr, DecidableEq

/-- The stream's `cancel(reason)` callback: set `readableStreamCancel`
and safe-close the server WebSocket. -/
def cancelStream (st : WSStreamState) : WSStreamState :=
  { readableStreamCancel := true
    wsReadyState := safeCloseWebSocket st.wsReadyState }

/-- The `message` event listener: a chunk is enqueued only while the
stream is not cancelled. -/
def onMessage (st : WSStreamState) (data : List Nat) : Option (List Nat) :=
  if st.readableStreamCancel then none else some data

/-! ### `socks5AddressParser` of `src/utils/parser.js`

`Number(str)` from JavaScript is modelled by `jsStringToNumber`:
whitespace-trimmed empty string is `0`, `Infinity` forms are infinite,
`0x`/`0o`/`0b` prefixes select a radix, and otherwise an optionally
signed decimal with optional fraction and exponent; anything else is
`NaN`. -/

/-- A JavaScript number as far as this code can observe it. -/
inductive JSNum where
  | nan
  | posInf
  | negInf
  | val (q : ℚ)
deriving Repr, DecidableEq

/-- ECMAScript `WhiteSpace` and `LineTerminator` code points, which
`Number(string)` strips from both ends. -/
def isJsWhitespace (c : Char) : Bool :=
  c.val = 9 || c.val = 10 || c.val = 11 || c.val = 12 || c.val = 13 ||
  c.val = 32 || c.val = 0xa0 || c.val = 0x1680 ||
  (0x2000 ≤ c.val && c.val ≤ 0x200a) || c.val = 0x2028 || c.val = 0x2029 ||
  c.val = 0x202f || c.val = 0x205f || c.val = 0x3000 || c.val = 0xfeff

/-- Strip leading and trailing JavaScript whitespace. -/
def jsTrim (cs : List Char) : List Char :=
  ((cs.dropWhile isJsWhitespace).reverse.dropWhile isJsWhitespace).reverse

/-- ASCII decimal digit. -/
def isDecDigit (c : Char) : Bool := '0' ≤ c && c ≤ '9'

/-- Value of a decimal digit. -/
def decDigitVal (c : Char) : Option Nat :=
  if isDecDigit c then some (c.toNat - 48) else none

/-- Value of a hexadecimal digit. -/
def hexDigitVal (c : Char) : Option Nat :=
  if isDecDigit c then some (c.toNat - 48)
  else if 'a' ≤ c && c ≤ 'f' then some (c.toNat - 97 + 10)
  else if 'A' ≤ c && c ≤ 'F' then some (c.toNat - 65 + 10)
  else none

/-- Value of an octal digit. -/
def octDigitVal (c : Char) : Option Nat :=
  if '0' ≤ c && c ≤ '7' then some (c.toNat - 48) else none

/-- Value of a binary digit. -/
def binDigitVal (c : Char) : Option Nat :=
  if c = '0' then some 0 else if c = '1' then some 1 else none

/-- Read a non-empty all-digit string in the given radix. -/
def parseRadix (radix : Nat) (digitVal : Char → Option Nat)
    (cs : List Char) : Option Nat :=
  if cs.isEmpty then none
  else
    cs.foldl
      (fun acc c =>
        match acc, digitVal c with
        | some a, some d => some (a * radix + d)
        | _, _ => none)
      (some 0)

/-- Value of an all-decimal-digit string. -/
def digitsToNat (ds : List Char) : Nat :=
  ds.foldl (fun a c => a * 10 + (c.toNat - 48)) 0

/-- Split a decimal literal at its first `e`/`E` exponent marker. -/
def splitAtExp : List Char → List Char × Option (List Char)
  | [] => ([], none)
  | c :: cs =>
    if c = 'e' ∨ c = 'E' then ([], some cs)
    else
      let r := splitAtExp cs
      (c :: r.1, r.2)

/-- An unsigned decimal mantissa: digits, digits `.` digits, digits `.`,
or `.` digits. -/
def parseMantissa (cs : List Char) : Option ℚ :=
  let p := cs.span isDecDigit
  match p.2 with
  | [] => if p.1.isEmpty then none else some (digitsToNat p.1 : ℚ)
  | '.' :: fp =>
    if fp.all isDecDigit && !(p.1.isEmpty && fp.isEmpty) then
      some ((digitsToNat p.1 : ℚ) + (digitsToNat fp : ℚ) / (10 : ℚ) ^ fp.length)
    else none
  | _ => none

/-- An optionally signed all-digit exponent. -/
def parseExpPart (cs : List Char) : Option Int :=
  match cs with
  | '+' :: ds => (parseRadix 10 decDigitVal ds).map Int.ofNat
  | '-' :: ds => (parseRadix 10 decDigitVal ds).map fun n => -(n : Int)
  | ds => (parseRadix 10 decDigitVal ds).map Int.ofNat

/-- Ten to an integer power, as a rational. -/
def pow10 (e : Int) : ℚ :=
  if 0 ≤ e then ((10 : ℚ) ^ e.toNat) else ((10 : ℚ) ^ (-e).toNat)⁻¹

/-- An unsigned decimal literal with optional exponent. -/
def parseUnsignedDec (cs : List Char) : Option ℚ :=
  let se := splitAtExp cs
  match se.2 with
  | none => parseMantissa se.1
  | some ecs =>
    match parseMantissa se.1, parseExpPart ecs with
    | some m, some e => some (m * pow10 e)
    | _, _ => none

/-- An optionally signed decimal literal. -/
def jsSignedDec (cs : List Char) : JSNum :=
  match cs with
  | '+' :: rest =>
    match parseUnsignedDec rest with
    | some q => .val q
    | none => .nan
  | '-' :: rest =>
    match parseUnsignedDec rest with
    | some q => .val (-q)
    | none => .nan
  | _ =>
    match parseUnsignedDec cs with
    | some q => .val q
    | none => .nan

/-- JavaScript `Number(string)`. -/
def jsStringToNumber (s : String) : JSNum :=
  let t := jsTrim s.data
  if t = [] then .val 0
  else if t = "Infinity".data ∨ t = "+Infinity".data then .posInf
  else if t = "-Infinity".data then .negInf
  else
    match t with
    | '0' :: c :: rest =>
      if c = 'x' ∨ c = 'X' then
        match parseRadix 16 hexDigitVal rest with
        | some n => .val (n : ℚ)
        | none => .nan
      else if c = 'o' ∨ c = 'O' then
        match parseRadix 8 octDigitVal rest with
        | some n => .val (n : ℚ)
        | none => .nan
      else if c = 'b' ∨ c = 'B' then
        match parseRadix 2 binDigitVal rest with
        | some n => .val (n : ℚ)
        | none => .nan
      else jsSignedDec t
    | _ => jsSignedDec t

/-- ECMAScript `LineTerminator` code points, which `.` in a regular
expression does not match. -/
def isLineTerminatorChar (c : Char) : Bool :=
  c.val = 10 || c.val = 13 || c.val = 0x2028 || c.val = 0x2029

/-- JavaScript `String.prototype.split` with a one-character separator,
acting on the string's character list (all separators this file needs
are single characters): splitting the empty string gives `[[]]`, and
every separator occurrence opens a new field. -/
def splitOnChar (sep : Char) : List Char → List (List Char)
  | [] => [[]]
  | c :: cs =>
    if c = sep then [] :: splitOnChar sep cs
    else
      match splitOnChar sep cs with
      | [] => [[c]]
      | g :: gs => (c :: g) :: gs

/-- JavaScript `Array.prototype.join` with a one-character separator. -/
def joinWithChar (sep : Char) : List (List Char) → List Char
  | [] => []
  | [g] => g
  | g :: gs => g ++ sep :: joinWithChar sep gs

/-- The test `/^\[.*\]$/.test(hostname)`: first character `[`, last
character `]`, and no line terminator in between (an unflagged `.` does
not match line terminators). -/
def bracketRegexTest (h : List Char) : Bool :=
  match h with
  | [] => false
  | c :: rest =>
    c = '[' && decide (rest.getLast? = some ']') &&
      (rest.dropLast.all fun x => !isLineTerminatorChar x)

/-- The record `socks5AddressParser` returns; `none` in a credential
field models JavaScript `undefined`. -/
structure Socks5Address where
  username : Option String
  password : Option String
  hostname : String
  port : JSNum
deriving Repr, DecidableEq

/-- The one error message `socks5AddressParser` ever throws. -/
def socksFormatError : String := "Invalid SOCKS address format"

/-- The credential step of `socks5AddressParser`: `former` is the
segment just before the last `@` (absent when the input has no `@`).
JavaScript's `if (former)` skips the step for an absent or empty
segment; a present non-empty segment must split into exactly two
colon-separated fields, which become `username` and `password`. -/
def socks5Credentials (former : Option (List Char)) :
    Except String (Option String × Option String) :=
  match former with
  | some f =>
    if f ≠ [] then
      let formers := splitOnChar ':' f
      if formers.length ≠ 2 then .error socksFormatError
      else .ok ((formers.get? 0).map String.mk, (formers.get? 1).map String.mk)
    else .ok (none, none)
  | none => .ok (none, none)

/-- `socks5AddressParser(address)` from `src/utils/parser.js`: split on
`@` and take the last segment as host part and the one before it as
credentials; pop the final `:`-field of the host part as the port and
convert it with `Number` (`NaN` throws); the remaining fields rejoined
with `:` form the hostname, which may contain `:` only when enclosed in
square brackets. -/
def socks5AddressParser (address : String) : Except String Socks5Address :=
  let parts := (splitOnChar '@' address.data).reverse
  let latter := parts.headD []
  match socks5Credentials (parts.get? 1) with
  | .error e => .error e
  | .ok creds =>
    let latters := splitOnChar ':' latter
    let portChars := (latters.getLast?).getD []
    let port := jsStringToNumber (String.mk portChars)
    if port = JSNum.nan then .error socksFormatError
    else
      let hostname := joinWithChar ':' latters.dropLast
      if hostname.contains ':' && !bracketRegexTest hostname then
        .error socksFormatError
      else .ok ⟨creds.1, creds.2, String.mk hostname, port⟩

/-- The throw condition of claim C10, stated from the claim's words: the
credentials segment before the last-considered `@` does not split into
exactly two colon-separated fields, or the text after the final `:` of
the host part is not numeric, or the hostname contains `:` without being
enclosed in square brackets. -/
def c10ClaimCondition (address : String) : Bool :=
  let parts := (splitOnChar '@' address.data).reverse
  let credsBad :=
    match parts.get? 1 with
    | some f => decide ((splitOnChar ':' f).length ≠ 2)
    | none => false
  let latters := splitOnChar ':' (parts.headD [])
  let portBad :=
    decide (jsStringToNumber (String.mk ((latters.getLast?).getD [])) = JSNum.nan)
  let hostname := joinWithChar ':' latters.dropLast
  credsBad || portBad || (hostname.contains ':' && !bracketRegexTest hostname)

/-- The throw condition of claim C10 amended as the code forces: the
credentials condition applies only to a present non-empty credentials
segment (JavaScript's truthiness test `if (former)` lets an empty one
through without a throw). -/
def c10AmendedCondition (address : String) : Bool :=
  let parts := (splitOnChar '@' address.data).reverse
  let credsBad :=
    match parts.get? 1 with
    | some f => decide (f ≠ []) && decide ((splitOnChar ':' f).length ≠ 2)
    | none => false
  let latters := splitOnChar ':' (parts.headD [])
  let portBad :=
    decide (jsStringToNumber (String.mk ((latters.getLast?).getD [])) = JSNum.nan)
  let hostname := joinWithChar ':' latters.dropLast
  credsBad || portBad || (hostname.contains ':' && !bracketRegexTest hostname)

/-! ### Helper lemmas about the copy loop -/

theorem writeChunk_of_not_open {st : CopyState} {c : Chunk}
    (h : c.isOpen = false) : writeChunk st c = none := by
  simp only [Chunk.isOpen, decide_eq_false_iff_not] at h
  simp [writeChunk, h]

theorem copyLoop_sent_length (st : CopyState) (chunks : List Chunk) :
    (copyLoop st chunks).sent.length =
      (chunks.takeWhile Chunk.isOpen).length := by
  induction chunks generalizing st with
  | nil => rfl
  | cons c cs ih =>
    by_cases hc : c.isOpen
    · simp only [Chunk.isOpen, decide_eq_true_eq] at hc
      simp only [copyLoop, writeChunk, hc, ne_eq, not_true_eq_false, if_false,
        List.takeWhile_cons, Chunk.isOpen, decide_eq_true_eq]
      cases h : ({ st with hasIncomingData := true } : CopyState).protocolResponseHeader <;>
        simp [hc, List.length_cons, ih]
    · simp only [Bool.not_eq_true] at hc
      simp [copyLoop, writeChunk_of_not_open hc, List.takeWhile_cons, hc]

theorem copyLoop_flag (st : CopyState) (chunks : List Chunk) :
    (copyLoop st chunks).state.hasIncomingData =
      (st.hasIncomingData || !(chunks.takeWhile Chunk.isOpen).isEmpty) := by
  induction chunks generalizing st with
  | nil => simp [copyLoop]
  | cons c cs ih =>
    by_cases hc : c.isOpen
    · simp only [Chunk.isOpen, decide_eq_true_eq] at hc
      simp only [copyLoop, writeChunk, hc, ne_eq, not_true_eq_false, if_false,
        List.takeWhile_cons, Chunk.isOpen, decide_eq_true_eq]
      cases h : ({ st with hasIncomingData := true } : CopyState).protocolResponseHeader <;>
        simp [hc, ih]
    · simp only [Bool.not_eq_true] at hc
      simp [copyLoop, writeChunk_of_not_open hc, List.takeWhile_cons, hc]

theorem copyLoop_errored (st : CopyState) (chunks : List Chunk) :
    (copyLoop st chunks).errored = !chunks.all Chunk.isOpen := by
  induction chunks generalizing st with
  | nil => rfl
  | cons c cs ih =>
    by_cases hc : c.isOpen
    · simp only [Chunk.isOpen, decide_eq_true_eq] at hc
      simp only [copyLoop, writeChunk, hc, ne_eq, not_true_eq_false, if_false,
        List.all_cons, Chunk.isOpen, decide_eq_true_eq]
      cases h : ({ st with hasIncomingData := true } : CopyState).protocolResponseHeader <;>
        simp [hc, ih]
    · simp only [Bool.not_eq_true] at hc
      simp [copyLoop, writeChunk_of_not_open hc, List.all_cons, hc]

theorem copyLoop_sent_of_header_none (b : Bool) (chunks : List Chunk) :
    (copyLoop ⟨b, none⟩ chunks).sent =
      (chunks.takeWhile Chunk.isOpen).map Chunk.data := by
  induction chunks generalizing b with
  | nil => rfl
  | cons c cs ih =>
    by_cases hc : c.isOpen
    · have hw : c.wsReadyState = wsReadyStateOpen := by
        simpa [Chunk.isOpen] using hc
      simp [copyLoop, writeChunk, hw, hc, List.takeWhile_cons, ih]
    · simp only [Bool.not_eq_true] at hc
      simp [copyLoop, writeChunk_of_not_open hc, List.takeWhile_cons, hc]

theorem copyLoop_header_of_header_none (b : Bool) (chunks : List Chunk) :
    (copyLoop ⟨b, none⟩ chunks).state.protocolResponseHeader = none := by
  induction chunks generalizing b with
  | nil => rfl
  | cons c cs ih =>
    by_cases hc : c.isOpen
    · simp only [Chunk.isOpen, decide_eq_true_eq] at hc
      simp [copyLoop, writeChunk, hc, ih]
    · simp only [Bool.not_eq_true] at hc
      simp [copyLoop, writeChunk_of_not_open hc]

theorem copyLoop_sent_of_header_some (b : Bool) (h : List Nat)
    (chunks : List Chunk) :
    (copyLoop ⟨b, some h⟩ chunks).sent =
      match (chunks.takeWhile Chunk.isOpen).map Chunk.data with
      | [] => []
      | c :: cs => (h ++ c) :: cs := by
  induction chunks with
  | nil => rfl
  | cons c cs _ =>
    by_cases hc : c.isOpen
    · have hw : c.wsReadyState = wsReadyStateOpen := by
        simpa [Chunk.isOpen] using hc
      simp [copyLoop, writeChunk, hw, hc, List.takeWhile_cons,
        copyLoop_sent_of_header_none]
    · simp only [Bool.not_eq_true] at hc
      simp [copyLoop, writeChunk_of_not_open hc, List.takeWhile_cons, hc]

theorem copyLoop_header_of_header_some (b : Bool) (h : List Nat)
    (chunks : List Chunk) :
    (copyLoop ⟨b, some h⟩ chunks).state.protocolResponseHeader =
      if (chunks.takeWhile Chunk.isOpen).isEmpty then some h else none := by
  induction chunks with
  | nil => rfl
  | cons c cs _ =>
    by_cases hc : c.isOpen
    · have hw : c.wsReadyState = wsReadyStateOpen := by
        simpa [Chunk.isOpen] using hc
      simp [copyLoop, writeChunk, hw, hc, List.takeWhile_cons,
        copyLoop_header_of_header_none]
    · simp only [Bool.not_eq_true] at hc
      simp [copyLoop, writeChunk_of_not_open hc, List.takeWhile_cons, hc]

theorem takeWhile_of_all {p : Chunk → Bool} {l : List Chunk}
    (h : l.all p = true) : l.takeWhile p = l := by
  induction l with
  | nil => rfl
  | cons c cs ih =>
    simp only [List.all_cons, Bool.and_eq_true] at h
    simp [List.takeWhile_cons, h.1, ih h.2]

theorem writeChunk_of_open (st : CopyState) {c : Chunk}
    (h : c.isOpen = true) :
    ∃ fr st1, writeChunk st c = some (fr, st1) := by
  have hw : c.wsReadyState = wsReadyStateOpen := by simpa [Chunk.isOpen] using h
  cases hh : st.protocolResponseHeader with
  | none =>
    exact ⟨c.data, { st with hasIncomingData := true }, by
      simp [writeChunk, hw, hh]⟩
  | some hd =>
    exact ⟨hd ++ c.data,
      { hasIncomingData := true, protocolResponseHeader := none }, by
      simp [writeChunk, hw, hh]⟩

/-! ### The claims about the copy loop -/

/-- C3: in the outbound-to-inbound copy, a pending protocol response
header is prepended to the very first chunk sent toward the client
exactly once and then cleared; every later chunk of the same copy goes
out unprefixed.  The delivered chunks of one copy are the longest prefix
of arrivals during which the WebSocket stays open. -/
theorem c3_header_prepended_once (h : List Nat) (b : Bool)
    (chunks : List Chunk) :
    ((chunks.takeWhile Chunk.isOpen).map Chunk.data = [] →
      (copyLoop ⟨b, some h⟩ chunks).sent = [] ∧
      (copyLoop ⟨b, some h⟩ chunks).state.protocolResponseHeader = some h) ∧
    (∀ c cs, (chunks.takeWhile Chunk.isOpen).map Chunk.data = c :: cs →
      (copyLoop ⟨b, some h⟩ chunks).sent = (h ++ c) :: cs ∧
      (copyLoop ⟨b, some h⟩ chunks).state.protocolResponseHeader = none) := by
  constructor
  · intro hnil
    have hempty : (chunks.takeWhile Chunk.isOpen).isEmpty = true := by
      simp only [List.map_eq_nil_iff] at hnil
      simp [hnil]
    constructor
    · rw [copyLoop_sent_of_header_some, hnil]
    · rw [copyLoop_header_of_header_some, if_pos hempty]
  · intro c cs hcons
    have hempty : (chunks.takeWhile Chunk.isOpen).isEmpty = false := by
      cases hl : chunks.takeWhile Chunk.isOpen with
      | nil => rw [hl] at hcons; simp at hcons
      | cons x xs => simp
    constructor
    · rw [copyLoop_sent_of_header_some, hcons]
    · rw [copyLoop_header_of_header_some, if_neg (by simp [hempty])]

/-- C5: a chunk arriving from the outbound socket while the inbound
WebSocket is not `OPEN` makes the `write` callback throw: nothing of
that chunk (or of anything after it) is delivered, the pipe is aborted,
and the frames sent are exactly those of the open prefix before it. -/
theorem c5_write_while_not_open_fatal (st : CopyState) (pre : List Chunk)
    (c : Chunk) (post : List Chunk)
    (hpre : pre.all Chunk.isOpen = true)
    (hc : c.isOpen = false) :
    copyLoop st (pre ++ c :: post) =
      ⟨(copyLoop st pre).sent, (copyLoop st pre).state, true⟩ ∧
    (copyLoop st pre).sent.length = pre.length := by
  constructor
  · induction pre generalizing st with
    | nil =>
      simp [copyLoop, writeChunk_of_not_open hc]
    | cons p ps ih =>
      simp only [List.all_cons, Bool.and_eq_true] at hpre
      obtain ⟨fr, st1, hws⟩ := writeChunk_of_open st hpre.1
      simp only [List.cons_append, copyLoop, hws, List.append_eq, ih st1 hpre.2]
  · rw [copyLoop_sent_length, takeWhile_of_all hpre]

/-- C5 witness: a first chunk delivered while open, then a chunk arriving
while the WebSocket is closed aborts the copy with exactly one frame
sent. -/
theorem c5_witness :
    copyLoop ⟨false, none⟩
        ([⟨wsReadyStateOpen, [7]⟩] ++ ⟨wsReadyStateClosed, [9]⟩ :: []) =
      ⟨(copyLoop ⟨false, none⟩ [⟨wsReadyStateOpen, [7]⟩]).sent,
        (copyLoop ⟨false, none⟩ [⟨wsReadyStateOpen, [7]⟩]).state, true⟩ ∧
    (copyLoop ⟨false, none⟩ [⟨wsReadyStateOpen, [7]⟩]).sent.length = 1 :=
  c5_write_while_not_open_fatal ⟨false, none⟩ [⟨wsReadyStateOpen, [7]⟩]
    ⟨wsReadyStateClosed, [9]⟩ [] (by decide) (by decide)

/-- C8: at every instant of one outbound-to-inbound copy (after any
prefix of the arriving chunks), `hasIncomingData` is set exactly when at
least one frame has been written back toward the client, and the frames
written are exactly the chunks that arrived while the inbound WebSocket
was open — so the flag flips exactly once, at the first byte written
while the connection is open, and never otherwise. -/
theorem c8_flag_set_on_first_delivered_byte (header : Option (List Nat))
    (chunks : List Chunk) (i : Nat) :
    ((copyLoop ⟨false, header⟩ (chunks.take i)).state.hasIncomingData
      = !(copyLoop ⟨false, header⟩ (chunks.take i)).sent.isEmpty) ∧
    ((copyLoop ⟨false, header⟩ (chunks.take i)).sent.length
      = ((chunks.take i).takeWhile Chunk.isOpen).length) := by
  have hlen := copyLoop_sent_length ⟨false, header⟩ (chunks.take i)
  refine ⟨?_, hlen⟩
  rw [copyLoop_flag]
  simp only [Bool.false_or]
  have h2 : ((chunks.take i).takeWhile Chunk.isOpen).isEmpty
      = (copyLoop ⟨false, header⟩ (chunks.take i)).sent.isEmpty := by
    rcases hs : (copyLoop ⟨false, header⟩ (chunks.take i)).sent with _ | ⟨x, xs⟩ <;>
      rcases ht : (chunks.take i).takeWhile Chunk.isOpen with _ | ⟨y, ys⟩ <;>
        simp_all
  rw [h2]

/-! ### The claims about the WebSocket readable stream -/

theorem base64Vals_length {cs : List Char} {vs : List Nat}
    (h : base64Vals cs = some vs) : vs.length = cs.length := by
  induction cs generalizing vs with
  | nil => simp only [base64Vals, Option.some.injEq] at h; simp [← h]
  | cons c cs ih =>
    simp only [base64Vals] at h
    cases hv : base64CharVal c with
    | none => rw [hv] at h; exact absurd h (by simp)
    | some v =>
      rw [hv] at h
      cases hvs : base64Vals cs with
      | none => rw [hvs] at h; exact absurd h (by simp)
      | some ws =>
        rw [hvs] at h
        simp only [Option.some.injEq] at h
        simp [← h, ih hvs]

theorem base64Quantum_ne_nil {vs bs : List Nat}
    (h : base64Quantum vs = some bs) : bs ≠ [] := by
  rcases vs with _ | ⟨a, _ | ⟨b, _ | ⟨c, _ | ⟨d, _ | ⟨e, rest⟩⟩⟩⟩⟩
  · exact absurd h (by simp [base64Quantum])
  · exact absurd h (by simp [base64Quantum])
  · simp only [base64Quantum, Option.some.injEq] at h
    simp [← h]
  · simp only [base64Quantum, Option.some.injEq] at h
    simp [← h]
  · simp only [base64Quantum, Option.some.injEq] at h
    simp [← h]
  · have hq : base64Quantum (a :: b :: c :: d :: e :: rest) = none := rfl
    rw [hq] at h
    exact absurd h (by simp)

theorem base64Bytes_ne_nil {vs bs : List Nat}
    (h : base64Bytes vs = some bs) (hvs : vs ≠ []) : bs ≠ [] := by
  rcases vs with _ | ⟨a, _ | ⟨b, _ | ⟨c, _ | ⟨d, _ | ⟨e, rest⟩⟩⟩⟩⟩
  · exact absurd rfl hvs
  · have hq : base64Bytes [a] = none := rfl
    rw [hq] at h
    exact absurd h (by simp)
  · exact base64Quantum_ne_nil h
  · exact base64Quantum_ne_nil h
  · exact base64Quantum_ne_nil h
  · simp only [base64Bytes] at h
    cases hq : base64Quantum [a, b, c, d] with
    | none => simp [base64Quantum] at hq
    | some bytes =>
      rw [hq] at h
      cases hm : base64Bytes (e :: rest) with
      | none => rw [hm] at h; exact absurd h (by simp)
      | some more =>
        rw [hm] at h
        simp only [Option.some.injEq] at h
        have hbytes := base64Quantum_ne_nil hq
        rw [← h]
        intro hnil
        exact hbytes (List.append_eq_nil.mp hnil).1

theorem base64ToArrayBuffer_some_ne_nil {s : String} {d : List Nat}
    (h : base64ToArrayBuffer s = .ok (some d)) : d ≠ [] := by
  by_cases hs : s = ""
  · simp [base64ToArrayBuffer, hs] at h
  · simp only [base64ToArrayBuffer, hs, if_false] at h
    cases hv : base64Vals (s.data.map fun c =>
        if c = '-' then '+' else if c = '_' then '/' else c) with
    | none => rw [hv] at h; simp [Option.bind] at h
    | some vs =>
      rw [hv] at h
      simp only [Option.some_bind] at h
      cases hb : base64Bytes vs with
      | none => rw [hb] at h; simp at h
      | some bytes =>
        rw [hb] at h
        simp only [Except.ok.injEq, Option.some.injEq] at h
        have hvslen := base64Vals_length hv
        have hne : vs ≠ [] := by
          intro hnil
          rw [hnil] at hvslen
          simp only [List.length_nil, List.length_map] at hvslen
          have : s.data = [] := List.length_eq_zero.mp hvslen.symm
          exact hs (by cases s; simp_all)
        rw [← h]
        exact base64Bytes_ne_nil hb hne

/-- C4: the early-data header is decoded once when the readable stream
starts; a decoding failure errors the stream before any chunk; a present
decoded value is necessarily non-empty and is delivered as the first
produced chunk, ahead of every live `message` event; an absent one
leaves exactly the live message chunks. -/
theorem c4_early_data_first (header : String) (msgs : List (List Nat)) :
    (∀ e, base64ToArrayBuffer header = .error e →
      wsStreamChunks header msgs = .error e) ∧
    (∀ d, base64ToArrayBuffer header = .ok (some d) →
      wsStreamChunks header msgs = .ok (d :: msgs) ∧ d ≠ []) ∧
    (base64ToArrayBuffer header = .ok none →
      wsStreamChunks header msgs = .ok msgs) := by
  refine ⟨fun e he => ?_, fun d hd => ⟨?_, base64ToArrayBuffer_some_ne_nil hd⟩,
    fun hn => ?_⟩
  · simp [wsStreamChunks, he]
  · simp [wsStreamChunks, hd]
  · simp [wsStreamChunks, hn]

theorem safeCloseWebSocket_idem (n : Nat) :
    safeCloseWebSocket (safeCloseWebSocket n) = safeCloseWebSocket n := by
  by_cases h : n = wsReadyStateOpen ∨ n = wsReadyStateClosing
  · rcases h with h | h <;> subst h <;> decide
  · simp [safeCloseWebSocket, h]

/-- C9: cancelling the inbound readable stream twice has exactly the
same observable effect as cancelling it once: same cancel flag, same
(safe-closed, no double-close fault) WebSocket state, and no chunk is
ever delivered after a cancel. -/
theorem c9_cancel_idempotent (st : WSStreamState) :
    cancelStream (cancelStream st) = cancelStream st ∧
    (∀ d, onMessage (cancelStream st) d = none) ∧
    (cancelStream st).readableStreamCancel = true ∧
    (st.wsReadyState = wsReadyStateOpen →
      (cancelStream st).wsReadyState = wsReadyStateClosed) := by
  refine ⟨?_, fun d => ?_, rfl, fun h => ?_⟩
  · simp [cancelStream, safeCloseWebSocket_idem]
  · simp [onMessage, cancelStream]
  · simp [cancelStream, safeCloseWebSocket, h, wsReadyStateOpen]

/-! ### The claims about `handleTCPOutBound` -/

theorem connectAndWrite_of_no_chain (config : Config) (raw : List Nat)
    (address : String) (port : PortVal) (useProxy : Bool)
    (h : (truthyStr config.proxyType && config.parsedProxyAddress) = false) :
    connectAndWrite config raw address port useProxy =
      ⟨address, port, .direct, [(.caller, raw)]⟩ := by
  have hn : ¬ (((config.socks5Relay || useProxy) && truthyStr config.proxyType
      && config.parsedProxyAddress) = true) := by
    simp only [Bool.and_eq_true]
    rintro ⟨⟨-, h3⟩, h2⟩
    rw [h3, h2] at h
    exact absurd h (by simp)
  simp only [connectAndWrite]
  rw [if_neg hn]

theorem connectAndWrite_of_proxy (config : Config) (raw : List Nat)
    (address : String) (port : PortVal) (useProxy : Bool)
    (h1 : (config.socks5Relay || useProxy) = true)
    (h2 : (truthyStr config.proxyType && config.parsedProxyAddress) = true) :
    connectAndWrite config raw address port useProxy =
      (if config.proxyType = some "http" then
        ⟨address, port, .http, [(.httpInternal, raw)]⟩
      else ⟨address, port, .socks5, [(.caller, raw)]⟩) := by
  have hc : ((config.socks5Relay || useProxy) && truthyStr config.proxyType
      && config.parsedProxyAddress) = true := by
    simp only [Bool.and_eq_true] at h2
    rw [h1, h2.1, h2.2]
    rfl
  simp only [connectAndWrite]
  rw [if_pos hc]

/-- C1: a retry happens exactly when the first attempt's
outbound-to-inbound copy ends with `hasIncomingData` still false; the
retry goes through the proxy chain when one is configured, else to
`config.proxyIP:config.proxyPort` when that fallback is configured, else
back to the original request address and port. -/
theorem c1_retry_exactly_on_no_upstream_data (config : Config)
    (addressRemote : String) (portRemote : Nat) (rawClientData : List Nat)
    (header : Option (List Nat)) (env : SessionEnv) :
    ((handleTCPOutBound config addressRemote portRemote rawClientData header env).retried
      = !(handleTCPOutBound config addressRemote portRemote rawClientData header env).firstCopy.copy.state.hasIncomingData) ∧
    ((handleTCPOutBound config addressRemote portRemote rawClientData header env).retried = true →
      (handleTCPOutBound config addressRemote portRemote rawClientData header env).attempts =
        [connectAndWrite config rawClientData addressRemote (.num portRemote) false,
         retryAttempt config rawClientData addressRemote portRemote]) ∧
    (chainConfigured config = true →
      (retryAttempt config rawClientData addressRemote portRemote).address = addressRemote ∧
      (retryAttempt config rawClientData addressRemote portRemote).port = .num portRemote ∧
      (retryAttempt config rawClientData addressRemote portRemote).route ≠ Route.direct) ∧
    (chainConfigured config = false → truthyStr config.proxyIP = true →
      truthyStr config.proxyPort = true →
      (retryAttempt config rawClientData addressRemote portRemote).address = config.proxyIP.getD "" ∧
      (retryAttempt config rawClientData addressRemote portRemote).port = .str (config.proxyPort.getD "") ∧
      (retryAttempt config rawClientData addressRemote portRemote).route = Route.direct) ∧
    (chainConfigured config = false → truthyStr config.proxyIP = false →
      truthyStr config.proxyPort = false →
      (retryAttempt config rawClientData addressRemote portRemote).address = addressRemote ∧
      (retryAttempt config rawClientData addressRemote portRemote).port = .num portRemote ∧
      (retryAttempt config rawClientData addressRemote portRemote).route = Route.direct) := by
  refine ⟨?_, ?_, ?_, ?_, ?_⟩
  · simp only [handleTCPOutBound, remoteSocketToWS]
    by_cases hflag :
        (copyLoop ⟨false, header⟩ env.firstChunks).state.hasIncomingData <;>
      simp [hflag]
  · simp only [handleTCPOutBound, remoteSocketToWS]
    by_cases hflag :
        (copyLoop ⟨false, header⟩ env.firstChunks).state.hasIncomingData <;>
      simp [hflag]
  · intro h
    simp only [chainConfigured] at h
    simp only [retryAttempt]
    rw [if_pos h,
      connectAndWrite_of_proxy config rawClientData addressRemote
        (.num portRemote) true (by rw [Bool.or_true]) h]
    by_cases ht : config.proxyType = some "http" <;> simp [ht]
  · intro h hip hport
    simp only [chainConfigured] at h
    simp only [retryAttempt]
    rw [if_neg (by simp [h]), if_pos hip, if_pos hport,
      connectAndWrite_of_no_chain config rawClientData _ _ false h]
    exact ⟨rfl, rfl, rfl⟩
  · intro h hip hport
    simp only [chainConfigured] at h
    simp only [retryAttempt]
    rw [if_neg (by simp [h]), if_neg (by simp [hip]), if_neg (by simp [hport]),
      connectAndWrite_of_no_chain config rawClientData _ _ false h]
    exact ⟨rfl, rfl, rfl⟩

/-- C2: once a retry is made, its copy runs with no retry callback (so a
second retry is impossible) and the WebSocket is closed unconditionally
when the retry socket's `closed` promise settles, whatever the retry's
outcome was. -/
theorem c2_retry_closes_ws_no_second_retry (config : Config)
    (addressRemote : String) (portRemote : Nat) (rawClientData : List Nat)
    (header : Option (List Nat)) (env : SessionEnv) :
    (handleTCPOutBound config addressRemote portRemote rawClientData header env).retried = true →
      (handleTCPOutBound config addressRemote portRemote rawClientData header env).retryWantsSecondRetry = false ∧
      (handleTCPOutBound config addressRemote portRemote rawClientData header env).wsStateAfterRetryClose =
        some (safeCloseWebSocket env.wsStateWhenRetrySocketClosed) ∧
      (env.wsStateWhenRetrySocketClosed = wsReadyStateOpen →
        (handleTCPOutBound config addressRemote portRemote rawClientData header env).wsStateAfterRetryClose =
          some wsReadyStateClosed) := by
  simp only [handleTCPOutBound, remoteSocketToWS]
  by_cases hflag :
      (copyLoop ⟨false, header⟩ env.firstChunks).state.hasIncomingData
  · simp [hflag]
  · intro _
    refine ⟨by simp [hflag], by simp [hflag], fun hws => ?_⟩
    simp [hflag, hws, safeCloseWebSocket, wsReadyStateOpen]

/-- C2 witness: a session whose first copy sees no chunk retries, makes
no second retry, and closes the (open) WebSocket. -/
theorem c2_witness :
    (handleTCPOutBound ⟨false, none, false, none, none⟩ "example.com" 443
        [1, 2] none ⟨[], false, [], false, wsReadyStateOpen⟩).retryWantsSecondRetry = false ∧
    (handleTCPOutBound ⟨false, none, false, none, none⟩ "example.com" 443
        [1, 2] none ⟨[], false, [], false, wsReadyStateOpen⟩).wsStateAfterRetryClose =
      some (safeCloseWebSocket wsReadyStateOpen) ∧
    (wsReadyStateOpen = wsReadyStateOpen →
      (handleTCPOutBound ⟨false, none, false, none, none⟩ "example.com" 443
          [1, 2] none ⟨[], false, [], false, wsReadyStateOpen⟩).wsStateAfterRetryClose =
        some wsReadyStateClosed) :=
  c2_retry_closes_ws_no_second_retry ⟨false, none, false, none, none⟩
    "example.com" 443 [1, 2] none ⟨[], false, [], false, wsReadyStateOpen⟩ rfl

/-- C6: the first connection attempt of every session targets the
requested `addressRemote:portRemote`; and with the global-relay flag
(`socks5Relay`) set and a proxy chain configured, no attempt of the
session is routed directly. -/
theorem c6_first_target_and_global_relay (config : Config)
    (addressRemote : String) (portRemote : Nat) (rawClientData : List Nat)
    (header : Option (List Nat)) (env : SessionEnv) :
    ((handleTCPOutBound config addressRemote portRemote rawClientData header env).attempts.head?.map
        (fun a => (a.address, a.port)) = some (addressRemote, PortVal.num portRemote)) ∧
    (config.socks5Relay = true → chainConfigured config = true →
      ∀ a ∈ (handleTCPOutBound config addressRemote portRemote rawClientData header env).attempts,
        a.route ≠ Route.direct) := by
  have hfirst : ∀ useProxy,
      (connectAndWrite config rawClientData addressRemote (.num portRemote) useProxy).address
        = addressRemote ∧
      (connectAndWrite config rawClientData addressRemote (.num portRemote) useProxy).port
        = PortVal.num portRemote := by
    intro useProxy
    simp only [connectAndWrite]
    split
    · split <;> exact ⟨rfl, rfl⟩
    · exact ⟨rfl, rfl⟩
  have hnodirect : ∀ address port useProxy, config.socks5Relay = true →
      chainConfigured config = true →
      (connectAndWrite config rawClientData address port useProxy).route ≠ Route.direct := by
    intro address port useProxy hrelay hchain
    simp only [chainConfigured] at hchain
    rw [connectAndWrite_of_proxy config rawClientData address port useProxy
      (by rw [hrelay, Bool.true_or]) hchain]
    by_cases ht : config.proxyType = some "http" <;> simp [ht]
  constructor
  · simp only [handleTCPOutBound, remoteSocketToWS]
    by_cases hflag :
        (copyLoop ⟨false, header⟩ env.firstChunks).state.hasIncomingData <;>
      simp [hflag, (hfirst false).1, (hfirst false).2]
  · intro hrelay hchain a ha
    simp only [handleTCPOutBound, remoteSocketToWS] at ha
    by_cases hflag :
        (copyLoop ⟨false, header⟩ env.firstChunks).state.hasIncomingData
    · simp only [hflag, Bool.not_true, Bool.false_and, Bool.false_eq_true,
        if_false, List.mem_singleton] at ha
      rw [ha]
      exact hnodirect _ _ _ hrelay hchain
    · simp only [hflag, Bool.not_false, Bool.true_and, if_true,
        List.mem_cons, List.mem_singleton, List.not_mem_nil, or_false] at ha
      rcases ha with ha | ha
      · rw [ha]
        exact hnodirect _ _ _ hrelay hchain
      · rw [ha]
        simp only [retryAttempt]
        split
        · exact hnodirect _ _ _ hrelay hchain
        · exact hnodirect _ _ _ hrelay hchain

/-- C6 witness: with the relay flag set and a SOCKS5 chain configured,
the single attempt of a session with upstream data targets the request
and is not direct. -/
theorem c6_witness :
    ((handleTCPOutBound ⟨true, some "socks5", true, none, none⟩ "example.com"
        443 [1] none ⟨[⟨wsReadyStateOpen, [9]⟩], false, [], false, 1⟩).attempts.head?.map
        (fun a => (a.address, a.port)) = some ("example.com", PortVal.num 443)) ∧
    (∀ a ∈ (handleTCPOutBound ⟨true, some "socks5", true, none, none⟩ "example.com"
        443 [1] none ⟨[⟨wsReadyStateOpen, [9]⟩], false, [], false, 1⟩).attempts,
      a.route ≠ Route.direct) :=
  ⟨(c6_first_target_and_global_relay ⟨true, some "socks5", true, none, none⟩
      "example.com" 443 [1] none ⟨[⟨wsReadyStateOpen, [9]⟩], false, [], false, 1⟩).1,
    (c6_first_target_and_global_relay ⟨true, some "socks5", true, none, none⟩
      "example.com" 443 [1] none ⟨[⟨wsReadyStateOpen, [9]⟩], false, [], false, 1⟩).2
      rfl rfl⟩

/-- C7: every successful `connectAndWrite` performs exactly one
tunnel-payload write, the client's initial payload, as the first (and
only) write: internally by the HTTP proxy handshake on the HTTP route,
and by the caller on the SOCKS5 and direct routes. -/
theorem c7_initial_payload_written_once (config : Config)
    (rawClientData : List Nat) (address : String) (port : PortVal)
    (useProxy : Bool) :
    ((connectAndWrite config rawClientData address port useProxy).writes.map Prod.snd
      = [rawClientData]) ∧
    ((connectAndWrite config rawClientData address port useProxy).route = Route.http →
      (connectAndWrite config rawClientData address port useProxy).writes
        = [(WriterTag.httpInternal, rawClientData)]) ∧
    ((connectAndWrite config rawClientData address port useProxy).route ≠ Route.http →
      (connectAndWrite config rawClientData address port useProxy).writes
        = [(WriterTag.caller, rawClientData)]) := by
  simp only [connectAndWrite]
  split
  · split <;> simp
  · simp

/-! ### The claims about `socks5AddressParser` -/

theorem socks5_throws_iff_amended (s : String) :
    (socks5AddressParser s = .error socksFormatError) ↔
      c10AmendedCondition s = true := by
  simp only [socks5AddressParser, c10AmendedCondition]
  cases hf : ((splitOnChar '@' s.data).reverse).get? 1 with
  | none =>
    simp only [hf, socks5Credentials]
    split_ifs with h1 h2 <;> simp_all
  | some f =>
    by_cases hf0 : f = []
    · subst hf0
      simp only [hf, socks5Credentials, ne_eq, not_true_eq_false, if_false,
        reduceIte]
      split_ifs with h1 h2 <;> simp_all
    · by_cases hlen : (splitOnChar ':' f).length = 2
      · simp only [hf, socks5Credentials, hf0, hlen, ne_eq, not_false_eq_true,
          if_true, not_true_eq_false, if_false, reduceIte]
        split_ifs with h1 h2 <;> simp_all
      · simp [hf, socks5Credentials, hf0, hlen]

theorem socks5_error_message {s e : String}
    (h : socks5AddressParser s = .error e) : e = socksFormatError := by
  simp only [socks5AddressParser, socks5Credentials] at h
  cases hf : ((splitOnChar '@' s.data).reverse).get? 1 with
  | none =>
    simp only [hf] at h
    split_ifs at h with h1 h2 <;> simp_all
  | some f =>
    by_cases hf0 : f = []
    · subst hf0
      simp only [hf, ne_eq, not_true_eq_false, Bool.false_eq_true, if_false,
        reduceIte] at h
      split_ifs at h with h1 h2 <;> simp_all
    · by_cases hlen : (splitOnChar ':' f).length = 2
      · simp only [hf, hf0, hlen, ne_eq, not_false_eq_true, if_true,
          not_true_eq_false, if_false, reduceIte] at h
        split_ifs at h with h1 h2 <;> simp_all
      · simp only [hf, hf0, hlen, ne_eq, not_false_eq_true, if_true,
          reduceIte] at h
        simp_all

/-- C10 counterexample: on the input `"@host:80"` the credentials
segment before the `@` is empty, so by the claim's characterization the
parser should throw (the empty segment does not split into two fields);
the code instead skips the falsy segment and succeeds with hostname
`host` and port `80`. -/
theorem c10_counterexample_empty_credentials :
    socks5AddressParser "@host:80" =
      .ok ⟨none, none, "host", JSNum.val 80⟩ ∧
    c10ClaimCondition "@host:80" = true := by
  constructor <;> decide

/-- C10 (amended): `socks5AddressParser` throws
`Invalid SOCKS address format` exactly when a present AND NON-EMPTY
credentials segment before the last-considered `@` does not split into
exactly two colon-separated fields, or the text after the final `:` of
the host part is not numeric under JavaScript `Number`, or the hostname
contains `:` without being enclosed in square brackets; every error it
throws carries that one message; and an input ending in a bare `:` gets
port `0`, because `Number('')` is `0`. -/
theorem c10_amended_throw_characterization :
    (∀ s, (socks5AddressParser s = .error socksFormatError) ↔
      c10AmendedCondition s = true) ∧
    (∀ s e, socks5AddressParser s = .error e → e = socksFormatError) ∧
    jsStringToNumber "" = JSNum.val 0 ∧
    socks5AddressParser "host:" = .ok ⟨none, none, "host", JSNum.val 0⟩ :=
  ⟨socks5_throws_iff_amended, fun _ _ h => socks5_error_message h,
    by decide, by decide⟩

end EDtunnel
